import Mathlib

set_option maxRecDepth 16000

/-!
Verification of the SevenTTY symbol-font generator
(tools/generate_symbolfont.py) against its natural-language specification.

The Python source is shallowly embedded below:
* the fixed configuration tables (MONACO_METRICS, GLYPH_MAP, resource ids)
  are transcribed literally;
* the mutable Bitmap class becomes an immutable pixel function
  togther with a DrawOp datatype: every drawing method of the class only
  ever sets pixels (it never reads or clears them), so a method call is
  exactly a pointwise Boolean or of the old pixel with a state-independent
  condition derived from the method's loops and guards.  Coordinates are
  integers; Python floor division is Int.fdiv, Python modulo is Int.emod.
  Pixels outside the grid do not exist in the Python list-of-lists grid
  and are modelled as permanently false; each condition carries the same
  bounds guards as the corresponding Python loop.
* fill_triangle and outline_circle perform Python float arithmetic on
  integer inputs; they are modelled with exact rational arithmetic
  (0.75, 0.5, 0.25 and r*1.5 are exactly representable, and the edge
  intersection values differ from the float values only below the
  double-precision rounding error, which no claim depends on).
* pack_nfnt and the FOND emission of emit_rez are embedded as the
  numeric quantities and tables they compute; the hex serialisation of
  those values is byte-per-word mechanical output not referenced by any
  claim.
-/

-- ---------------------------------------------------------------------------
-- Fixed configuration (transcribed from the source)
-- ---------------------------------------------------------------------------

/-- Cell metrics record: one per supported point size.
Source tuple order: (pt_size, cell_width, cell_height, ascent, descent, leading). -/
structure CellMetrics where
  pt : Nat
  cell_width : Nat
  cell_height : Nat
  ascent : Nat
  descent : Nat
  leading : Nat
deriving DecidableEq, Repr

/-- Monaco metrics table from the source (MONACO_METRICS). -/
def MONACO_METRICS : List CellMetrics :=
  [⟨9,  6,  12,  9, 2, 0⟩,
   ⟨10, 6,  14, 10, 2, 1⟩,
   ⟨12, 7,  17, 12, 3, 1⟩,
   ⟨14, 8,  19, 14, 3, 1⟩,
   ⟨18, 11, 25, 18, 4, 2⟩,
   ⟨24, 14, 33, 24, 6, 2⟩,
   ⟨36, 22, 49, 36, 9, 3⟩]

def FOND_ID : Nat := 200
def NFNT_BASE_ID : Nat := 200
def FIRST_CHAR : Nat := 0x20
def LAST_CHAR : Nat := 0xAD

/-- Glyph map: Unicode codepoint to symbol-font char code, in source order. -/
def GLYPH_MAP : List (Nat × Nat) :=
  [ -- Single line box drawing
    (0x2500, 0x9B), (0x2502, 0x21), (0x250C, 0x22), (0x2510, 0x23),
    (0x2514, 0x24), (0x2518, 0x25), (0x251C, 0x26), (0x2524, 0x27),
    (0x252C, 0x28), (0x2534, 0x29), (0x253C, 0x2A),
    -- Double line box drawing
    (0x2550, 0x2B), (0x2551, 0x2C), (0x2554, 0x2D), (0x2557, 0x2E),
    (0x255A, 0x2F), (0x255D, 0x30), (0x2560, 0x31), (0x2563, 0x32),
    (0x2566, 0x33), (0x2569, 0x34), (0x256C, 0x35),
    -- Mixed single/double
    (0x2552, 0x36), (0x2553, 0x37), (0x2555, 0x38), (0x2556, 0x39),
    (0x2558, 0x3A), (0x2559, 0x3B), (0x255B, 0x3C), (0x255C, 0x3D),
    (0x255E, 0x3E), (0x255F, 0x3F), (0x2561, 0x40), (0x2562, 0x41),
    (0x2564, 0x42), (0x2565, 0x43), (0x2567, 0x44), (0x2568, 0x45),
    (0x256A, 0x46), (0x256B, 0x47),
    -- Half lines and heavy
    (0x2574, 0x48), (0x2575, 0x49), (0x2576, 0x4A), (0x2577, 0x4B),
    (0x2501, 0x4C), (0x2503, 0x4D), (0x254B, 0x4E), (0x2504, 0x4F),
    -- Block Elements
    (0x2580, 0x50), (0x2581, 0x51), (0x2582, 0x52), (0x2583, 0x53),
    (0x2584, 0x54), (0x2585, 0x55), (0x2586, 0x56), (0x2587, 0x57),
    (0x2588, 0x58), (0x2589, 0x59), (0x258A, 0x5A), (0x258B, 0x5B),
    (0x258C, 0x5C), (0x258D, 0x5D), (0x258E, 0x5E), (0x258F, 0x5F),
    -- Shading + geometric
    (0x2590, 0x60), (0x2591, 0x61), (0x2592, 0x62), (0x2593, 0x63),
    (0x2594, 0x64), (0x2595, 0x65), (0x25A0, 0x66), (0x25A1, 0x67),
    (0x25AA, 0x68), (0x25AB, 0x69), (0x25B2, 0x6A), (0x25B6, 0x6B),
    (0x25BC, 0x6C), (0x25C0, 0x6D), (0x25CB, 0x6E), (0x25CF, 0x6F),
    -- CP437 classics + misc
    (0x2660, 0x70), (0x2663, 0x71), (0x2665, 0x72), (0x2666, 0x73),
    (0x263A, 0x74), (0x263B, 0x75), (0x266A, 0x76), (0x266B, 0x77),
    (0x2713, 0x78), (0x2717, 0x79), (0x2190, 0x7A), (0x2191, 0x7B),
    (0x2192, 0x7C), (0x2193, 0x7D), (0x2194, 0x7E),
    -- Claude CLI characters
    (0x23F5, 0x7F), (0x2217, 0x80), (0x2722, 0x81), (0x2733, 0x82),
    (0x273B, 0x83), (0x273D, 0x84),
    -- Braille patterns for spinner
    (0x280B, 0x85), (0x2819, 0x86), (0x2839, 0x87), (0x2838, 0x88),
    (0x283C, 0x89), (0x2834, 0x8A), (0x2826, 0x8B), (0x2827, 0x8C),
    (0x2807, 0x8D), (0x280F, 0x8E),
    -- Search icon
    (0x2315, 0x8F),
    -- Quadrant block characters
    (0x2596, 0x90), (0x2597, 0x91), (0x2598, 0x92), (0x2599, 0x93),
    (0x259A, 0x94), (0x259B, 0x95), (0x259C, 0x96), (0x259D, 0x97),
    (0x259E, 0x98), (0x259F, 0x99),
    -- Pointer / prompt marker
    (0x276F, 0x9A),
    -- Figures / UI characters
    (0x25C6, 0x9C), (0x25C7, 0x9D), (0x2714, 0x9E), (0x2718, 0x9F),
    (0x25FB, 0xA0), (0x25FC, 0xA1), (0x25C9, 0xA2), (0x25EF, 0xA3),
    (0x2610, 0xA4), (0x2612, 0xA5), (0x2605, 0xA6), (0x2630, 0xA7),
    (0x25B3, 0xA8), (0x26A0, 0xA9), (0x25CE, 0xAA), (0x25CC, 0xAB),
    (0x2139, 0xAC),
    -- Middle dot / separator
    (0x00B7, 0xAD) ]

/-- Reverse map lookup, mirroring the Python dict comprehension
CODE_TO_UNICODE = the pairs of GLYPH_MAP with key and value swapped
(later entries overwrite earlier ones, hence the left fold). -/
def CODE_TO_UNICODE (c : Nat) : Option Nat :=
  GLYPH_MAP.foldl (fun acc p => if p.2 = c then some p.1 else acc) none

-- ---------------------------------------------------------------------------
-- Bitmap and drawing operations
-- ---------------------------------------------------------------------------

/-- Pixel grid of the Bitmap class.  The Python object stores a w-by-h
list of lists of 0/1; here the pixel state is a total Boolean function of
integer coordinates, with everything outside the grid permanently false. -/
structure Bitmap where
  w : Int
  h : Int
  pix : Int → Int → Bool

/-- Freshly constructed Bitmap: all pixels zero. -/
def Bitmap.ofSize (w h : Int) : Bitmap := ⟨w, h, fun _ _ => false⟩

/-- One call to a drawing method of the Bitmap class, with its arguments. -/
inductive DrawOp where
  | set (x y : Int)
  | fill_rect (x0 y0 x1 y1 : Int)
  | hline (y x0 x1 : Int)
  | vline (x y0 y1 : Int)
  | dither (density : ℚ)
  | fill_circle (cx cy r : Int)
  | outline_circle (cx cy r : Int)
  | fill_triangle (p0 p1 p2 : Int × Int)
deriving DecidableEq

/-- Python int() truncation toward zero, applied to an exact rational. -/
def pytrunc (q : ℚ) : Int := if 0 ≤ q then ⌊q⌋ else ⌈q⌉

/-- Scanline edge intersections collected by fill_triangle for row y:
for each of the three edges, skip it when horizontal, otherwise when y
is between the endpoint ordinates record the interpolated x coordinate. -/
def triInters (p0 p1 p2 : Int × Int) (y : Int) : List ℚ :=
  [(p0, p1), (p1, p2), (p2, p0)].filterMap (fun e =>
    if e.1.2 = e.2.2 then none
    else if min e.1.2 e.2.2 ≤ y ∧ y ≤ max e.1.2 e.2.2 then
      some ((e.1.1 : ℚ) + ((y : ℚ) - (e.1.2 : ℚ)) / ((e.2.2 : ℚ) - (e.1.2 : ℚ))
              * ((e.2.1 : ℚ) - (e.1.1 : ℚ)))
    else none)

/-- Whether a drawing call sets pixel (x, y) on a w-by-h grid.  Every
method of the Bitmap class writes 1 at a set of coordinates that does not
depend on the current pixel state, so a call is fully described by this
condition; the bounds tests reproduce the clipping guards of each method. -/
def opCond (op : DrawOp) (w h x y : Int) : Bool :=
  match op with
  | .set x0 y0 =>
      decide (0 ≤ x0 ∧ x0 < w ∧ 0 ≤ y0 ∧ y0 < h ∧ x = x0 ∧ y = y0)
  | .fill_rect x0 y0 x1 y1 =>
      decide (max 0 x0 ≤ x ∧ x < min w x1 ∧ max 0 y0 ≤ y ∧ y < min h y1)
  | .hline y0 x0 x1 =>
      decide (max 0 x0 ≤ x ∧ x < min w x1 ∧ 0 ≤ y0 ∧ y0 < h ∧ y = y0)
  | .vline x0 y0 y1 =>
      decide (max 0 y0 ≤ y ∧ y < min h y1 ∧ 0 ≤ x0 ∧ x0 < w ∧ x = x0)
  | .dither density =>
      decide (0 ≤ x ∧ x < w ∧ 0 ≤ y ∧ y < h) &&
      (if (3 : ℚ)/4 ≤ density then decide (¬(x % 2 = 0 ∧ y % 2 = 0))
       else if (1 : ℚ)/2 ≤ density then decide ((x + y) % 2 = 0)
       else if (1 : ℚ)/4 ≤ density then decide (x % 2 = 0 ∧ y % 2 = 0)
       else false)
  | .fill_circle cx cy r =>
      decide (0 ≤ x ∧ x < w ∧ 0 ≤ y ∧ y < h ∧
        (x - cx) * (x - cx) + (y - cy) * (y - cy) ≤ r * r)
  | .outline_circle cx cy r =>
      decide (0 ≤ x ∧ x < w ∧ 0 ≤ y ∧ y < h ∧
        2 * |(x - cx) * (x - cx) + (y - cy) * (y - cy) - r * r| ≤ 3 * r)
  | .fill_triangle p0 p1 p2 =>
      decide (max 0 (min p0.2 (min p1.2 p2.2)) ≤ y ∧
              y ≤ min (h - 1) (max p0.2 (max p1.2 p2.2))) &&
      (let xs := triInters p0 p1 p2 y
       decide (2 ≤ xs.length) &&
       match xs.min?, xs.max? with
       | some a, some b =>
           decide (max 0 (pytrunc a) ≤ x ∧ x < min w (pytrunc b + 1))
       | _, _ => false)

/-- Execute one drawing call on a bitmap. -/
def applyOp (bm : Bitmap) (op : DrawOp) : Bitmap :=
  ⟨bm.w, bm.h, fun x y => bm.pix x y || opCond op bm.w bm.h x y⟩

-- ---------------------------------------------------------------------------
-- Glyph rendering dispatch (render_glyph)
-- ---------------------------------------------------------------------------

/-- Python range(a, b) over integers (empty when b is at most a). -/
def intRange (a b : Int) : List Int :=
  (List.range (b - a).toNat).map (fun i => a + (i : Int))

/-- Python range(a, b, s) for a positive step s. -/
def intRangeStep (a b s : Int) : List Int :=
  (List.range ((b - a + s - 1).fdiv s).toNat).map (fun i => a + s * (i : Int))

/-- Braille dot_map from the source: (row, col, bit) triples. -/
def braille_dot_map : List (Nat × Nat × Nat) :=
  [(0, 0, 0), (1, 0, 1), (2, 0, 2),
   (0, 1, 3), (1, 1, 4), (2, 1, 5),
   (3, 0, 6), (3, 1, 7)]

/-- Drawing calls of the braille branch of render_glyph: for each dot_map
triple whose bit is set in the pattern, one filled circle at the column x
(thirds of the width) and row y (fifths of the height) of that dot. -/
def brailleOps (pattern : Nat) (w h : Int) : List DrawOp :=
  let dot_r := max 1 ((min w h).fdiv 8)
  let col_x : List Int := [w.fdiv 3, (w * 2).fdiv 3]
  let row_y : List Int :=
    [(h * 1).fdiv 5, (h * 2).fdiv 5, (h * 3).fdiv 5, (h * 4).fdiv 5]
  braille_dot_map.filterMap (fun t =>
    if pattern &&& (1 <<< t.2.2) ≠ 0 then
      some (.fill_circle (col_x.getD t.2.1 0) (row_y.getD t.1 0) dot_r)
    else none)

/-- Exact values of the doubles math.cos(math.radians(d)) and
math.sin(math.radians(d)) for d = 0, 30, ..., 330, used by the dotted
circle branch (every IEEE double is a dyadic rational, so these twelve
pairs are exact; the later double multiplication and addition round,
which can move a dot by one pixel only when the radius is below 2 -
smaller than every configured cell - and no claim reads this glyph). -/
def dottedAngles : List (ℚ × ℚ) :=
  [(1, 0),
   (7800463371553963/9007199254740992, 9007199254740991/18014398509481984),
   (4503599627370497/9007199254740992, 3900231685776981/4503599627370496),
   (4967757600021511/81129638414606681695789005144064, 1),
   (-2251799813685247/4503599627370496, 7800463371553963/9007199254740992),
   (-7800463371553963/9007199254740992, 9007199254740991/18014398509481984),
   (-1, 4967757600021511/40564819207303340847894502572032),
   (-3900231685776981/4503599627370496, -4503599627370497/9007199254740992),
   (-1125899906842625/2251799813685248, -975057921444245/1125899906842624),
   (-3725818200016133/20282409603651670423947251286016, -1),
   (4503599627370497/9007199254740992, -3900231685776981/4503599627370496),
   (975057921444245/1125899906842624, -1125899906842625/2251799813685248)]

/-- Sequence of drawing calls performed by render_glyph for one glyph:
a literal transcription of its if/elif dispatch, one branch per Unicode
codepoint, ending in the lozenge placeholder branch.  The in-bounds guard
of the dotted-circle branch is subsumed by the identical guard inside
the set method. -/
def glyphOps (unicode_cp : Nat) (w h : Int) : List DrawOp :=
  let cx := w.fdiv 2
  let cy := h.fdiv 2
  -- Box drawing (single line)
  if unicode_cp = 0x2500 then [.hline cy 0 w]
  else if unicode_cp = 0x2502 then [.vline cx 0 h]
  else if unicode_cp = 0x250C then [.hline cy cx w, .vline cx cy h]
  else if unicode_cp = 0x2510 then [.hline cy 0 (cx + 1), .vline cx cy h]
  else if unicode_cp = 0x2514 then [.hline cy cx w, .vline cx 0 (cy + 1)]
  else if unicode_cp = 0x2518 then [.hline cy 0 (cx + 1), .vline cx 0 (cy + 1)]
  else if unicode_cp = 0x251C then [.vline cx 0 h, .hline cy cx w]
  else if unicode_cp = 0x2524 then [.vline cx 0 h, .hline cy 0 (cx + 1)]
  else if unicode_cp = 0x252C then [.hline cy 0 w, .vline cx cy h]
  else if unicode_cp = 0x2534 then [.hline cy 0 w, .vline cx 0 (cy + 1)]
  else if unicode_cp = 0x253C then [.hline cy 0 w, .vline cx 0 h]
  -- Double line box drawing
  else if unicode_cp = 0x2550 then [.hline (cy - 1) 0 w, .hline (cy + 1) 0 w]
  else if unicode_cp = 0x2551 then [.vline (cx - 1) 0 h, .vline (cx + 1) 0 h]
  else if unicode_cp = 0x2554 then
    [.hline (cy - 1) (cx + 1) w, .hline (cy + 1) (cx - 1) w,
     .vline (cx - 1) (cy + 1) h, .vline (cx + 1) (cy - 1) h]
  else if unicode_cp = 0x2557 then
    [.hline (cy - 1) 0 cx, .hline (cy + 1) 0 (cx + 2),
     .vline (cx + 1) (cy + 1) h, .vline (cx - 1) (cy - 1) h]
  else if unicode_cp = 0x255A then
    [.hline (cy - 1) (cx - 1) w, .hline (cy + 1) (cx + 1) w,
     .vline (cx - 1) 0 (cy - 1 + 1), .vline (cx + 1) 0 (cy + 1)]
  else if unicode_cp = 0x255D then
    [.hline (cy - 1) 0 (cx + 2), .hline (cy + 1) 0 cx,
     .vline (cx + 1) 0 (cy - 1 + 1), .vline (cx - 1) 0 (cy + 1 + 1)]
  else if unicode_cp = 0x2560 then
    [.vline (cx - 1) 0 h, .vline (cx + 1) 0 (cy - 1 + 1),
     .vline (cx + 1) (cy + 1) h, .hline (cy - 1) (cx + 1) w,
     .hline (cy + 1) (cx + 1) w]
  else if unicode_cp = 0x2563 then
    [.vline (cx + 1) 0 h, .vline (cx - 1) 0 (cy - 1 + 1),
     .vline (cx - 1) (cy + 1) h, .hline (cy - 1) 0 cx, .hline (cy + 1) 0 cx]
  else if unicode_cp = 0x2566 then
    [.hline (cy - 1) 0 w, .hline (cy + 1) 0 cx, .hline (cy + 1) (cx + 2) w,
     .vline (cx - 1) (cy - 1) h, .vline (cx + 1) (cy - 1) h]
  else if unicode_cp = 0x2569 then
    [.hline (cy + 1) 0 w, .hline (cy - 1) 0 cx, .hline (cy - 1) (cx + 2) w,
     .vline (cx - 1) 0 (cy + 1 + 1), .vline (cx + 1) 0 (cy + 1 + 1)]
  else if unicode_cp = 0x256C then
    [.hline (cy - 1) 0 cx, .hline (cy - 1) (cx + 2) w,
     .hline (cy + 1) 0 cx, .hline (cy + 1) (cx + 2) w,
     .vline (cx - 1) 0 cy, .vline (cx - 1) (cy + 2) h,
     .vline (cx + 1) 0 cy, .vline (cx + 1) (cy + 2) h]
  -- Mixed single/double
  else if unicode_cp = 0x2552 then
    [.vline cx (cy - 1) h, .hline (cy - 1) cx w, .hline (cy + 1) cx w]
  else if unicode_cp = 0x2553 then
    [.hline cy (cx - 1) w, .vline (cx - 1) cy h, .vline (cx + 1) cy h]
  else if unicode_cp = 0x2555 then
    [.vline cx (cy - 1) h, .hline (cy - 1) 0 (cx + 1), .hline (cy + 1) 0 (cx + 1)]
  else if unicode_cp = 0x2556 then
    [.hline cy 0 (cx + 2), .vline (cx - 1) cy h, .vline (cx + 1) cy h]
  else if unicode_cp = 0x2558 then
    [.vline cx 0 (cy + 2), .hline (cy - 1) cx w, .hline (cy + 1) cx w]
  else if unicode_cp = 0x2559 then
    [.hline cy (cx - 1) w, .vline (cx - 1) 0 (cy + 1), .vline (cx + 1) 0 (cy + 1)]
  else if unicode_cp = 0x255B then
    [.vline cx 0 (cy + 2), .hline (cy - 1) 0 (cx + 1), .hline (cy + 1) 0 (cx + 1)]
  else if unicode_cp = 0x255C then
    [.hline cy 0 (cx + 2), .vline (cx - 1) 0 (cy + 1), .vline (cx + 1) 0 (cy + 1)]
  else if unicode_cp = 0x255E then
    [.vline cx 0 h, .hline (cy - 1) cx w, .hline (cy + 1) cx w]
  else if unicode_cp = 0x255F then
    [.vline (cx - 1) 0 h, .vline (cx + 1) 0 h, .hline cy (cx + 1) w]
  else if unicode_cp = 0x2561 then
    [.vline cx 0 h, .hline (cy - 1) 0 (cx + 1), .hline (cy + 1) 0 (cx + 1)]
  else if unicode_cp = 0x2562 then
    [.vline (cx - 1) 0 h, .vline (cx + 1) 0 h, .hline cy 0 cx]
  else if unicode_cp = 0x2564 then
    [.hline (cy - 1) 0 w, .hline (cy + 1) 0 w, .vline cx (cy + 1) h]
  else if unicode_cp = 0x2565 then
    [.hline cy 0 w, .vline (cx - 1) cy h, .vline (cx + 1) cy h]
  else if unicode_cp = 0x2567 then
    [.hline (cy - 1) 0 w, .hline (cy + 1) 0 w, .vline cx 0 cy]
  else if unicode_cp = 0x2568 then
    [.hline cy 0 w, .vline (cx - 1) 0 (cy + 1), .vline (cx + 1) 0 (cy + 1)]
  else if unicode_cp = 0x256A then
    [.vline cx 0 h, .hline (cy - 1) 0 w, .hline (cy + 1) 0 w]
  else if unicode_cp = 0x256B then
    [.vline (cx - 1) 0 h, .vline (cx + 1) 0 h, .hline cy 0 w]
  -- Half lines
  else if unicode_cp = 0x2574 then [.hline cy 0 (cx + 1)]
  else if unicode_cp = 0x2575 then [.vline cx 0 (cy + 1)]
  else if unicode_cp = 0x2576 then [.hline cy cx w]
  else if unicode_cp = 0x2577 then [.vline cx cy h]
  -- Heavy lines
  else if unicode_cp = 0x2501 then
    [.hline (cy - 1) 0 w, .hline cy 0 w, .hline (cy + 1) 0 w]
  else if unicode_cp = 0x2503 then
    [.vline (cx - 1) 0 h, .vline cx 0 h, .vline (cx + 1) 0 h]
  else if unicode_cp = 0x254B then
    [.hline (cy - 1) 0 w, .hline cy 0 w, .hline (cy + 1) 0 w,
     .vline (cx - 1) 0 h, .vline cx 0 h, .vline (cx + 1) 0 h]
  -- Triple dash
  else if unicode_cp = 0x2504 then
    let seg := max 1 (w.fdiv 5)
    (intRangeStep 0 w (seg * 2)).map (fun i => .hline cy i (min (i + seg) w))
  -- Block elements
  else if unicode_cp = 0x2580 then [.fill_rect 0 0 w (h.fdiv 2)]
  else if unicode_cp = 0x2581 then [.fill_rect 0 (h - max 1 (h.fdiv 8)) w h]
  else if unicode_cp = 0x2582 then [.fill_rect 0 (h - max 1 (h.fdiv 4)) w h]
  else if unicode_cp = 0x2583 then [.fill_rect 0 (h - max 1 ((h * 3).fdiv 8)) w h]
  else if unicode_cp = 0x2584 then [.fill_rect 0 (h.fdiv 2) w h]
  else if unicode_cp = 0x2585 then [.fill_rect 0 (h - max 1 ((h * 5).fdiv 8)) w h]
  else if unicode_cp = 0x2586 then [.fill_rect 0 (h - max 1 ((h * 3).fdiv 4)) w h]
  else if unicode_cp = 0x2587 then [.fill_rect 0 (h - max 1 ((h * 7).fdiv 8)) w h]
  else if unicode_cp = 0x2588 then [.fill_rect 0 0 w h]
  else if unicode_cp = 0x2589 then [.fill_rect 0 0 (max 1 ((w * 7).fdiv 8)) h]
  else if unicode_cp = 0x258A then [.fill_rect 0 0 (max 1 ((w * 3).fdiv 4)) h]
  else if unicode_cp = 0x258B then [.fill_rect 0 0 (max 1 ((w * 5).fdiv 8)) h]
  else if unicode_cp = 0x258C then [.fill_rect 0 0 (w.fdiv 2) h]
  else if unicode_cp = 0x258D then [.fill_rect 0 0 (max 1 ((w * 3).fdiv 8)) h]
  else if unicode_cp = 0x258E then [.fill_rect 0 0 (max 1 (w.fdiv 4)) h]
  else if unicode_cp = 0x258F then [.fill_rect 0 0 (max 1 (w.fdiv 8)) h]
  -- Shading
  else if unicode_cp = 0x2590 then [.fill_rect (w.fdiv 2) 0 w h]
  else if unicode_cp = 0x2591 then [.dither (1/4)]
  else if unicode_cp = 0x2592 then [.dither (1/2)]
  else if unicode_cp = 0x2593 then [.dither (3/4)]
  else if unicode_cp = 0x2594 then [.fill_rect 0 0 w (max 1 (h.fdiv 8))]
  else if unicode_cp = 0x2595 then [.fill_rect (w - max 1 (w.fdiv 8)) 0 w h]
  -- Geometric shapes
  else if unicode_cp = 0x25A0 then
    let m := max 1 ((min w h).fdiv 6)
    [.fill_rect m m (w - m) (h - m)]
  else if unicode_cp = 0x25A1 then
    let m := max 1 ((min w h).fdiv 6)
    [.fill_rect m m (w - m) (m + 1), .fill_rect m (h - m - 1) (w - m) (h - m),
     .fill_rect m m (m + 1) (h - m), .fill_rect (w - m - 1) m (w - m) (h - m)]
  else if unicode_cp = 0x25AA then
    let m := max 1 ((min w h).fdiv 4)
    [.fill_rect m m (w - m) (h - m)]
  else if unicode_cp = 0x25AB then
    let m := max 1 ((min w h).fdiv 4)
    [.fill_rect m m (w - m) (m + 1), .fill_rect m (h - m - 1) (w - m) (h - m),
     .fill_rect m m (m + 1) (h - m), .fill_rect (w - m - 1) m (w - m) (h - m)]
  -- Triangles
  else if unicode_cp = 0x25B2 then
    [.fill_triangle (cx, 1) (1, h - 2) (w - 2, h - 2)]
  else if unicode_cp = 0x25B6 then
    [.fill_triangle (1, 1) (1, h - 2) (w - 2, cy)]
  else if unicode_cp = 0x25BC then
    [.fill_triangle (cx, h - 2) (1, 1) (w - 2, 1)]
  else if unicode_cp = 0x25C0 then
    [.fill_triangle (w - 2, 1) (w - 2, h - 2) (1, cy)]
  -- Circles
  else if unicode_cp = 0x25CB then [.outline_circle cx cy (min cx cy - 1)]
  else if unicode_cp = 0x25CF then [.fill_circle cx cy (min cx cy - 1)]
  -- Card suits
  else if unicode_cp = 0x2660 then
    [.fill_triangle (cx, 1) (1, cy + 1) (w - 2, cy + 1),
     .fill_circle (cx - w.fdiv 4) (cy + 1) (w.fdiv 4),
     .fill_circle (cx + w.fdiv 4) (cy + 1) (w.fdiv 4),
     .vline cx (cy + 1) (h - 1)]
  else if unicode_cp = 0x2663 then
    let r := max 1 (w.fdiv 4)
    [.fill_circle cx 2 r, .fill_circle (cx - r - 1) cy r,
     .fill_circle (cx + r + 1) cy r, .vline cx cy (h - 1)]
  else if unicode_cp = 0x2665 then
    let r := max 1 (w.fdiv 4)
    [.fill_circle (cx - r) (2 + r) r, .fill_circle (cx + r) (2 + r) r,
     .fill_triangle (cx, h - 2) (0, 2 + r) (w - 1, 2 + r)]
  else if unicode_cp = 0x2666 then
    [.fill_triangle (cx, 1) (1, cy) (cx, h - 2),
     .fill_triangle (cx, 1) (w - 2, cy) (cx, h - 2)]
  -- Smileys
  else if unicode_cp = 0x263A then
    [.outline_circle cx cy (min cx cy - 1)] ++
    (if w ≥ 6 then
      [.set (cx - 1) (cy - 1), .set (cx + 1) (cy - 1), .set cx (cy + 1)]
     else [])
  else if unicode_cp = 0x263B then [.fill_circle cx cy (min cx cy - 1)]
  -- Music notes
  else if unicode_cp = 0x266A then
    [.fill_circle (cx - 1) (h - 3) (max 1 (w.fdiv 4)),
     .vline (cx + max 1 (w.fdiv 4) - 1) 2 (h - 3),
     .hline 2 (cx + max 1 (w.fdiv 4) - 1) (w - 1)]
  else if unicode_cp = 0x266B then
    let x0 := max 1 (w.fdiv 4)
    let x1 := w - max 1 (w.fdiv 4) - 1
    [.fill_circle x0 (h - 3) (max 1 (w.fdiv 5)),
     .fill_circle x1 (h - 3) (max 1 (w.fdiv 5)),
     .vline (x0 + max 1 (w.fdiv 5)) 2 (h - 3),
     .vline (x1 + max 1 (w.fdiv 5)) 2 (h - 3),
     .hline 2 (x0 + max 1 (w.fdiv 5)) (x1 + max 1 (w.fdiv 5) + 1),
     .hline 3 (x0 + max 1 (w.fdiv 5)) (x1 + max 1 (w.fdiv 5) + 1)]
  -- Check/X marks
  else if unicode_cp = 0x2713 then
    (intRange 0 ((min w h).fdiv 2)).map
      (fun i => .set (cx.fdiv 2 + i) (cy + i)) ++
    (intRange 0 ((min w h * 2).fdiv 3)).map
      (fun i => .set (cx.fdiv 2 + (min w h).fdiv 2 + i)
                     (cy + (min w h).fdiv 2 - 1 - i))
  else if unicode_cp = 0x2717 then
    (intRange 0 (min w h - 2)).flatMap (fun i =>
      [.set (1 + (i * (w - 2)).fdiv (min w h - 2)) (1 + i),
       .set (w - 2 - (i * (w - 2)).fdiv (min w h - 2)) (1 + i)])
  -- Arrows
  else if unicode_cp = 0x2190 then
    [.hline cy 0 w] ++
    (intRange 0 (min 3 (h.fdiv 3))).flatMap (fun i =>
      [.set i (cy - i - 1), .set i (cy + i + 1)])
  else if unicode_cp = 0x2191 then
    [.vline cx 0 h] ++
    (intRange 0 (min 3 (w.fdiv 3))).flatMap (fun i =>
      [.set (cx - i - 1) i, .set (cx + i + 1) i])
  else if unicode_cp = 0x2192 then
    [.hline cy 0 w] ++
    (intRange 0 (min 3 (h.fdiv 3))).flatMap (fun i =>
      [.set (w - 1 - i) (cy - i - 1), .set (w - 1 - i) (cy + i + 1)])
  else if unicode_cp = 0x2193 then
    [.vline cx 0 h] ++
    (intRange 0 (min 3 (w.fdiv 3))).flatMap (fun i =>
      [.set (cx - i - 1) (h - 1 - i), .set (cx + i + 1) (h - 1 - i)])
  else if unicode_cp = 0x2194 then
    [.hline cy 0 w] ++
    (intRange 0 (min 3 (h.fdiv 3))).flatMap (fun i =>
      [.set i (cy - i - 1), .set i (cy + i + 1),
       .set (w - 1 - i) (cy - i - 1), .set (w - 1 - i) (cy + i + 1)])
  -- Claude prompt marker
  else if unicode_cp = 0x23F5 then
    let m := max 1 ((min w h).fdiv 6)
    [.fill_triangle (m, m) (m, h - m - 1) (w - m - 1, cy)]
  -- Spinner asterisk/star characters
  else if unicode_cp = 0x2217 then
    let r := min cx cy - 1
    [.vline cx (cy - r) (cy + r + 1)] ++
    (intRange (-r) (r + 1)).flatMap (fun i =>
      let dx := ((i * r).fdiv (if r = 0 then 1 else r)).fdiv 2
      [.set (cx + i) (cy - dx), .set (cx + i) (cy + dx)])
  else if unicode_cp = 0x2722 then
    let r := min cx cy - 1
    [.vline cx (cy - r) (cy + r + 1), .hline cy (cx - r) (cx + r + 1),
     .set (cx - 1) (cy - 1), .set (cx + 1) (cy - 1),
     .set (cx - 1) (cy + 1), .set (cx + 1) (cy + 1)]
  else if unicode_cp = 0x2733 then
    let r := min cx cy - 1
    [.vline cx (cy - r) (cy + r + 1), .hline cy (cx - r) (cx + r + 1)] ++
    (intRange (-r) (r + 1)).flatMap (fun i =>
      [.set (cx + i) (cy + i), .set (cx + i) (cy - i)])
  else if unicode_cp = 0x273B then
    let r := min cx cy - 1
    [.vline cx (cy - r) (cy + r + 1), .hline cy (cx - r) (cx + r + 1)] ++
    (intRange (-r) (r + 1)).flatMap (fun i =>
      [.set (cx + i) (cy + i), .set (cx + i) (cy - i)]) ++
    (if w ≥ 6 then
      [.set (cx - 1) cy, .set (cx + 1) cy, .set cx (cy - 1), .set cx (cy + 1)]
     else [])
  else if unicode_cp = 0x273D then
    let r := min cx cy - 1
    [.vline cx (cy - r) (cy + r + 1), .hline cy (cx - r) (cx + r + 1)] ++
    (intRange (-r) (r + 1)).flatMap (fun i =>
      [.set (cx + i) (cy + i), .set (cx + i) (cy - i)]) ++
    [.fill_circle cx cy (max 1 ((min cx cy - 1).fdiv 2))]
  -- Search / magnifying glass icon
  else if unicode_cp = 0x2315 then
    let lens_r := max 2 ((min w h).fdiv 3)
    let lens_cx := cx - lens_r.fdiv 3
    let lens_cy := cy - lens_r.fdiv 3
    [.outline_circle lens_cx lens_cy lens_r] ++
    (intRange 0 lens_r).flatMap (fun i =>
      [.set (lens_cx + lens_r + i) (lens_cy + lens_r + i)] ++
      (if w ≥ 8 then [.set (lens_cx + lens_r + i + 1) (lens_cy + lens_r + i)]
       else []))
  -- Braille patterns
  else if 0x2800 ≤ unicode_cp ∧ unicode_cp ≤ 0x28FF then
    brailleOps (unicode_cp - 0x2800) w h
  -- Pointer / angle bracket
  else if unicode_cp = 0x276F then
    (intRange 0 h).flatMap (fun i =>
      let x := if i ≤ cy then cx - cx + (i * cx).fdiv (max cy 1)
               else cx - ((i - cy) * cx).fdiv (max (h - 1 - cy) 1)
      [.set x i] ++ (if w ≥ 6 then [.set (x + 1) i] else []))
  -- Quadrant block characters
  else if unicode_cp = 0x2596 then [.fill_rect 0 (h.fdiv 2) (w.fdiv 2) h]
  else if unicode_cp = 0x2597 then [.fill_rect (w.fdiv 2) (h.fdiv 2) w h]
  else if unicode_cp = 0x2598 then [.fill_rect 0 0 (w.fdiv 2) (h.fdiv 2)]
  else if unicode_cp = 0x2599 then
    [.fill_rect 0 0 (w.fdiv 2) (h.fdiv 2), .fill_rect 0 (h.fdiv 2) w h]
  else if unicode_cp = 0x259A then
    [.fill_rect 0 0 (w.fdiv 2) (h.fdiv 2), .fill_rect (w.fdiv 2) (h.fdiv 2) w h]
  else if unicode_cp = 0x259B then
    [.fill_rect 0 0 w (h.fdiv 2), .fill_rect 0 (h.fdiv 2) (w.fdiv 2) h]
  else if unicode_cp = 0x259C then
    [.fill_rect 0 0 w (h.fdiv 2), .fill_rect (w.fdiv 2) (h.fdiv 2) w h]
  else if unicode_cp = 0x259D then [.fill_rect (w.fdiv 2) 0 w (h.fdiv 2)]
  else if unicode_cp = 0x259E then
    [.fill_rect (w.fdiv 2) 0 w (h.fdiv 2), .fill_rect 0 (h.fdiv 2) (w.fdiv 2) h]
  else if unicode_cp = 0x259F then
    [.fill_rect (w.fdiv 2) 0 w (h.fdiv 2), .fill_rect 0 (h.fdiv 2) w h]
  -- Figures / UI characters
  else if unicode_cp = 0x25C6 then
    [.fill_triangle (cx, 1) (1, cy) (cx, h - 2),
     .fill_triangle (cx, 1) (w - 2, cy) (cx, h - 2)]
  else if unicode_cp = 0x25C7 then
    (intRange 0 cy).flatMap (fun i =>
      [.set (cx - i) (cy - i), .set (cx + i) (cy - i),
       .set (cx - i) (cy + i), .set (cx + i) (cy + i)])
  else if unicode_cp = 0x2714 then
    (intRange (-1) 2).flatMap (fun d =>
      (intRange 0 (h.fdiv 3)).map
        (fun i => DrawOp.set (w.fdiv 4 + i) (cy + i + d)) ++
      (intRange 0 ((h * 2).fdiv 3)).map
        (fun i => DrawOp.set (w.fdiv 4 + h.fdiv 3 + i)
                             (cy + h.fdiv 3 - 1 - i + d)))
  else if unicode_cp = 0x2718 then
    (intRange (-1) 2).flatMap (fun d =>
      (intRange 0 (h - 2)).flatMap (fun i =>
        [.set (1 + (i * (w - 3)).fdiv (max (h - 3) 1) + d) (1 + i),
         .set (w - 2 - (i * (w - 3)).fdiv (max (h - 3) 1) + d) (1 + i)]))
  else if unicode_cp = 0x25FB then
    let m := max 1 ((min w h).fdiv 5)
    [.fill_rect m m (w - m) (m + 1), .fill_rect m (h - m - 1) (w - m) (h - m),
     .fill_rect m m (m + 1) (h - m), .fill_rect (w - m - 1) m (w - m) (h - m)]
  else if unicode_cp = 0x25FC then
    let m := max 1 ((min w h).fdiv 5)
    [.fill_rect m m (w - m) (h - m)]
  else if unicode_cp = 0x25C9 then
    let r := min cx cy - 1
    [.outline_circle cx cy r, .fill_circle cx cy (max 1 (r.fdiv 2))]
  else if unicode_cp = 0x25EF then [.outline_circle cx cy (min cx cy - 1)]
  else if unicode_cp = 0x2610 then
    let m := max 1 ((min w h).fdiv 6)
    [.fill_rect m m (w - m) (m + 1), .fill_rect m (h - m - 1) (w - m) (h - m),
     .fill_rect m m (m + 1) (h - m), .fill_rect (w - m - 1) m (w - m) (h - m)]
  else if unicode_cp = 0x2612 then
    let m := max 1 ((min w h).fdiv 6)
    [.fill_rect m m (w - m) (m + 1), .fill_rect m (h - m - 1) (w - m) (h - m),
     .fill_rect m m (m + 1) (h - m), .fill_rect (w - m - 1) m (w - m) (h - m)] ++
    (intRange 0 (h - 2 * m - 2)).flatMap (fun i =>
      [.set (m + 1 + (i * (w - 2 * m - 3)).fdiv (max (h - 2 * m - 3) 1))
            (m + 1 + i),
       .set (w - m - 2 - (i * (w - 2 * m - 3)).fdiv (max (h - 2 * m - 3) 1))
            (m + 1 + i)])
  else if unicode_cp = 0x2605 then
    [.fill_triangle (cx, 0) (cx - cx.fdiv 2, cy) (cx + cx.fdiv 2, cy),
     .fill_triangle (0, h.fdiv 3) (w - 1, h.fdiv 3) (cx, h - 2),
     .fill_rect (cx - cx.fdiv 2) (h.fdiv 3) (cx + cx.fdiv 2 + 1) (cy + 1)]
  else if unicode_cp = 0x2630 then
    let t := max 1 (h.fdiv 8)
    (intRange 0 3).map (fun row =>
      .fill_rect 1 (h.fdiv 6 + (row * h).fdiv 3) (w - 1)
                 (h.fdiv 6 + (row * h).fdiv 3 + t))
  else if unicode_cp = 0x25B3 then
    (intRange 0 (h - 2)).flatMap (fun i =>
      let hw := (i * (w - 2)).fdiv (2 * max (h - 3) 1)
      [.set (cx - hw) (h - 2 - i), .set (cx + hw) (h - 2 - i)]) ++
    [.hline (h - 2) (cx - (w - 2).fdiv 2) (cx + (w - 2).fdiv 2 + 1)]
  else if unicode_cp = 0x26A0 then
    (intRange 0 (h - 2)).flatMap (fun i =>
      let hw := (i * (w - 2)).fdiv (2 * max (h - 3) 1)
      [.set (cx - hw) (h - 2 - i), .set (cx + hw) (h - 2 - i)]) ++
    [.hline (h - 2) (cx - (w - 2).fdiv 2) (cx + (w - 2).fdiv 2 + 1),
     .vline cx (h.fdiv 4 + 1) ((h * 2).fdiv 3), .set cx ((h * 3).fdiv 4)]
  else if unicode_cp = 0x25CE then
    let r := min cx cy - 1
    [.outline_circle cx cy r] ++
    (if r ≥ 3 then [.outline_circle cx cy (r - 2)] else [])
  else if unicode_cp = 0x25CC then
    let r := min cx cy - 1
    dottedAngles.map (fun a =>
      .set (pytrunc ((cx : ℚ) + (r : ℚ) * a.1)) (pytrunc ((cy : ℚ) + (r : ℚ) * a.2)))
  else if unicode_cp = 0x2139 then
    [.set cx 2, .vline cx 4 (h - 2),
     .hline (h - 2) (cx - 1) (cx + 2), .hline 4 (cx - 1) (cx + 2)]
  else if unicode_cp = 0x00B7 then
    let dot_size := max 1 ((min w h).fdiv 6)
    (intRange 0 dot_size).flatMap (fun dy =>
      (intRange 0 dot_size).map (fun dx =>
        DrawOp.set (cx - dot_size.fdiv 2 + dx) (cy - dot_size.fdiv 2 + dy)))
  else
    -- Unknown glyph: lozenge-like placeholder
    [.set cx 1, .set (cx - 1) cy, .set (cx + 1) cy, .set cx (h - 2)]

/-- Render a single glyph: start from a fresh all-zero bitmap and perform
the drawing calls of the matching branch in order. -/
def render_glyph (unicode_cp : Nat) (w h : Int) : Bitmap :=
  (glyphOps unicode_cp w h).foldl applyOp (Bitmap.ofSize w h)

-- ---------------------------------------------------------------------------
-- NFNT packing quantities (pack_nfnt)
-- ---------------------------------------------------------------------------

/-- Number of character codes in the font range. -/
def num_chars : Nat := LAST_CHAR - FIRST_CHAR + 1

/-- Location/offset-width table entry count: the characters plus the
missing glyph and the end sentinel. -/
def table_entries : Nat := num_chars + 2

/-- Glyph count of the strike: every character plus the missing glyph. -/
def total_glyphs : Nat := num_chars + 1

/-- Pixel width of the glyph strip. -/
def strip_width (cell_w : Nat) : Nat := total_glyphs * cell_w

/-- Strike row length in 16-bit words: (strip_width + 15) // 16. -/
def row_words (cell_w : Nat) : Nat := (strip_width cell_w + 15) / 16

/-- Strike row length in bits. -/
def row_bits (cell_w : Nat) : Nat := row_words cell_w * 16

/-- Byte size of the packed strike. -/
def strike_bytes (cell_w cell_h : Nat) : Nat := row_words cell_w * 2 * cell_h

/-- Byte size of the location table. -/
def loc_bytes : Nat := table_entries * 2

/-- Byte offset of the offset/width table inside the resource:
after the 26-byte header, the strike and the location table. -/
def ow_table_byte (cell_w cell_h : Nat) : Nat :=
  26 + strike_bytes cell_w cell_h + loc_bytes

/-- Byte offset of the owTLoc field itself: word 8 of the header. -/
def owTLoc_byte : Nat := 16

/-- The owTLoc header field: word offset from the owTLoc field to the
offset/width table. -/
def owTLoc (cell_w cell_h : Nat) : Nat :=
  (ow_table_byte cell_w cell_h - owTLoc_byte) / 2

/-- Location table: pixel offset of each glyph, then the missing glyph,
then the end sentinel. -/
def loc_table (cell_w : Nat) : List Nat :=
  (List.range num_chars).map (fun i => i * cell_w) ++
  [num_chars * cell_w, (num_chars + 1) * cell_w]

/-- Offset/width table: (offset << 8) | width for each defined code,
0xFFFF for each undefined code, then the missing-glyph entry and the
0xFFFF end sentinel. -/
def ow_table (cell_w : Nat) : List Nat :=
  (List.range num_chars).map (fun i =>
    if (CODE_TO_UNICODE (FIRST_CHAR + i)).isSome then (0 <<< 8) ||| cell_w
    else 0xFFFF) ++
  [(0 <<< 8) ||| cell_w, 0xFFFF]

-- ---------------------------------------------------------------------------
-- FOND resource (emit_rez)
-- ---------------------------------------------------------------------------

/-- Resource id assigned to the NFNT generated for the i-th metrics entry
in the emission loop of emit_rez. -/
def nfnt_id (i : Nat) : Nat := NFNT_BASE_ID + i

/-- Resource ids of all generated NFNT resources, in emission order. -/
def nfnt_ids : List Nat := (List.range MONACO_METRICS.length).map nfnt_id

/-- Words of the FOND font association table, in packing order: the
count-minus-one word, then one (point size, style, NFNT id) triple per
configured size (each struct.pack call appends one big-endian word; only
the word values matter to the claims, not their byte serialisation). -/
def fond_assoc_words : List Nat :=
  [MONACO_METRICS.length - 1] ++
  MONACO_METRICS.enum.flatMap (fun p => [p.2.pt, 0, nfnt_id p.1])

/-- Number of character codes in the supported range that have a glyph
assigned in GLYPH_MAP. -/
def numDefinedChars : Nat :=
  ((List.range' FIRST_CHAR num_chars).filter
    (fun c => GLYPH_MAP.any (fun p => p.2 == c))).length

-- ---------------------------------------------------------------------------
-- Spec-side braille description (for claim C7)
-- ---------------------------------------------------------------------------

/-- In-bounds test of the pixel grid. -/
def inGrid (w h x y : Int) : Bool := decide (0 ≤ x ∧ x < w ∧ 0 ≤ y ∧ y < h)

/-- Dot centre demanded by the claimed bit-to-position mapping: bits 0-2
are the left column top to bottom, bits 3-5 the right column top to
bottom, bits 6-7 the bottom row left then right; columns sit at w//3 and
w*2//3 and row i sits at h*(i+1)//5. -/
def brailleCenter (b : Nat) (w h : Int) : Int × Int :=
  match b with
  | 0 => (w.fdiv 3, (h * 1).fdiv 5)
  | 1 => (w.fdiv 3, (h * 2).fdiv 5)
  | 2 => (w.fdiv 3, (h * 3).fdiv 5)
  | 3 => ((w * 2).fdiv 3, (h * 1).fdiv 5)
  | 4 => ((w * 2).fdiv 3, (h * 2).fdiv 5)
  | 5 => ((w * 2).fdiv 3, (h * 3).fdiv 5)
  | 6 => (w.fdiv 3, (h * 4).fdiv 5)
  | _ => ((w * 2).fdiv 3, (h * 4).fdiv 5)

/-- Claimed braille pixel semantics: pixel (x, y) is on exactly when some
bit b of the pattern is set and (x, y) lies in the clipped filled circle
of radius max(1, min(w,h)//8) around the centre that the fixed mapping
assigns to bit b. -/
def brailleDotSpec (pattern : Nat) (w h x y : Int) : Bool :=
  (List.range 8).any (fun b =>
    pattern.testBit b &&
    opCond (.fill_circle (brailleCenter b w h).1 (brailleCenter b w h).2
              (max 1 ((min w h).fdiv 8))) w h x y)

/-- Placeholder drawing calls of the final fallthrough branch of
render_glyph: the 4-point lozenge. -/
def lozengeOps (w h : Int) : List DrawOp :=
  [.set (w.fdiv 2) 1, .set (w.fdiv 2 - 1) (h.fdiv 2),
   .set (w.fdiv 2 + 1) (h.fdiv 2), .set (w.fdiv 2) (h - 2)]

/-- Codepoints having a dedicated branch in render_glyph, in branch
order, the braille range excluded. -/
def handledCodes : List Nat :=
  [0x2500, 0x2502, 0x250C, 0x2510, 0x2514, 0x2518, 0x251C, 0x2524, 0x252C,
   0x2534, 0x253C, 0x2550, 0x2551, 0x2554, 0x2557, 0x255A, 0x255D, 0x2560,
   0x2563, 0x2566, 0x2569, 0x256C, 0x2552, 0x2553, 0x2555, 0x2556, 0x2558,
   0x2559, 0x255B, 0x255C, 0x255E, 0x255F, 0x2561, 0x2562, 0x2564, 0x2565,
   0x2567, 0x2568, 0x256A, 0x256B, 0x2574, 0x2575, 0x2576, 0x2577, 0x2501,
   0x2503, 0x254B, 0x2504, 0x2580, 0x2581, 0x2582, 0x2583, 0x2584, 0x2585,
   0x2586, 0x2587, 0x2588, 0x2589, 0x258A, 0x258B, 0x258C, 0x258D, 0x258E,
   0x258F, 0x2590, 0x2591, 0x2592, 0x2593, 0x2594, 0x2595, 0x25A0, 0x25A1,
   0x25AA, 0x25AB, 0x25B2, 0x25B6, 0x25BC, 0x25C0, 0x25CB, 0x25CF, 0x2660,
   0x2663, 0x2665, 0x2666, 0x263A, 0x263B, 0x266A, 0x266B, 0x2713, 0x2717,
   0x2190, 0x2191, 0x2192, 0x2193, 0x2194, 0x23F5, 0x2217, 0x2722, 0x2733,
   0x273B, 0x273D, 0x2315, 0x276F, 0x2596, 0x2597, 0x2598, 0x2599, 0x259A,
   0x259B, 0x259C, 0x259D, 0x259E, 0x259F, 0x25C6, 0x25C7, 0x2714, 0x2718,
   0x25FB, 0x25FC, 0x25C9, 0x25EF, 0x2610, 0x2612, 0x2605, 0x2630, 0x25B3,
   0x26A0, 0x25CE, 0x25CC, 0x2139, 0x00B7]

/-- Whether a codepoint matches some rendering category of render_glyph
(a dedicated branch or the braille range). -/
def handled (cp : Nat) : Bool :=
  handledCodes.contains cp || (decide (0x2800 ≤ cp) && decide (cp ≤ 0x28FF))

-- ---------------------------------------------------------------------------
-- Helper lemmas
-- ---------------------------------------------------------------------------

theorem applyOp_pix (bm : Bitmap) (op : DrawOp) (x y : Int) :
    (applyOp bm op).pix x y = (bm.pix x y || opCond op bm.w bm.h x y) := rfl

theorem foldl_applyOp_pix (ops : List DrawOp) (bm : Bitmap) (x y : Int) :
    (ops.foldl applyOp bm).pix x y =
      (bm.pix x y || ops.any (fun op => opCond op bm.w bm.h x y)) := by
  induction ops generalizing bm with
  | nil => simp
  | cons o rest ih =>
    simp only [List.foldl_cons, List.any_cons]
    rw [ih]
    simp [applyOp, Bool.or_assoc]

/-- Every drawing condition implies that the pixel lies inside the grid:
each method of the Bitmap class guards all its writes. -/
theorem opCond_inside {op : DrawOp} {w h x y : Int}
    (hc : opCond op w h x y = true) : 0 ≤ x ∧ x < w ∧ 0 ≤ y ∧ y < h := by
  cases op with
  | set x0 y0 =>
    simp only [opCond, decide_eq_true_eq] at hc
    omega
  | fill_rect x0 y0 x1 y1 =>
    simp only [opCond, decide_eq_true_eq] at hc
    omega
  | hline y0 x0 x1 =>
    simp only [opCond, decide_eq_true_eq] at hc
    omega
  | vline x0 y0 y1 =>
    simp only [opCond, decide_eq_true_eq] at hc
    omega
  | dither d =>
    simp only [opCond, Bool.and_eq_true, decide_eq_true_eq] at hc
    exact hc.1
  | fill_circle cx cy r =>
    simp only [opCond, decide_eq_true_eq] at hc
    exact ⟨hc.1, hc.2.1, hc.2.2.1, hc.2.2.2.1⟩
  | outline_circle cx cy r =>
    simp only [opCond, decide_eq_true_eq] at hc
    exact ⟨hc.1, hc.2.1, hc.2.2.1, hc.2.2.2.1⟩
  | fill_triangle p0 p1 p2 =>
    simp only [opCond, Bool.and_eq_true, decide_eq_true_eq] at hc
    obtain ⟨hy, hrest⟩ := hc
    split at hrest
    case _ a b _ =>
      simp only [Bool.and_eq_true, decide_eq_true_eq] at hrest
      omega
    case _ =>
      simp at hrest

theorem opCond_outside {op : DrawOp} {w h x y : Int}
    (hout : ¬(0 ≤ x ∧ x < w ∧ 0 ≤ y ∧ y < h)) : opCond op w h x y = false := by
  cases hop : opCond op w h x y with
  | false => rfl
  | true => exact absurd (opCond_inside hop) hout

theorem render_glyph_outside (cp : Nat) (w h x y : Int)
    (hout : ¬(0 ≤ x ∧ x < w ∧ 0 ≤ y ∧ y < h)) :
    (render_glyph cp w h).pix x y = false := by
  unfold render_glyph
  rw [foldl_applyOp_pix]
  simp only [Bitmap.ofSize, Bool.false_or]
  rw [List.any_eq_false]
  intro op _
  simp [opCond_outside hout]

/-- Generic shape of the braille loop: pushing any through a filterMap
whose function keeps f a when c a holds. -/
theorem any_filterMap_ite {α β : Type} (l : List α) (c : α → Prop)
    [DecidablePred c] (f : α → β) (g : β → Bool) :
    ((l.filterMap (fun a => if c a then some (f a) else none)).any g) =
      l.any (fun a => decide (c a) && g (f a)) := by
  induction l with
  | nil => rfl
  | cons a t ih =>
    by_cases hca : c a
    · simp [List.filterMap_cons, hca, ih]
    · simp [List.filterMap_cons, hca, ih]

/-- Bit test written as in the source (bitwise and with a shifted one)
agrees with Nat.testBit. -/
theorem and_shiftLeft_ne_zero (p b : Nat) :
    decide (p &&& (1 <<< b) ≠ 0) = p.testBit b := by
  rcases htb : p.testBit b with _ | _
  · simp only [decide_eq_false_iff_not, ne_eq, Decidable.not_not]
    rw [Nat.shiftLeft_eq, one_mul, Nat.and_two_pow, htb]
    simp
  · simp only [decide_eq_true_eq, ne_eq]
    rw [Nat.shiftLeft_eq, one_mul, Nat.and_two_pow, htb]
    simp only [Bool.toNat_true, one_mul]
    exact (Nat.pos_pow_of_pos b (by norm_num)).ne'


set_option maxHeartbeats 4000000 in
/-- The dispatch sends every braille codepoint to the braille branch. -/
theorem glyphOps_braille (p : Nat) (hp : p < 256) (w h : Int) :
    glyphOps (0x2800 + p) w h = brailleOps p w h := by
  simp only [glyphOps]
  repeat rw [if_neg (by omega)]
  rw [if_pos (show 0x2800 ≤ 0x2800 + p ∧ 0x2800 + p ≤ 0x28FF by omega)]
  rw [Nat.add_sub_cancel_left]

/-- Pixel semantics of the braille branch agrees with the claimed
bit-to-dot-position mapping. -/
theorem brailleOps_pix (pattern : Nat) (w h x y : Int) :
    ((brailleOps pattern w h).foldl applyOp (Bitmap.ofSize w h)).pix x y =
      brailleDotSpec pattern w h x y := by
  rw [foldl_applyOp_pix]
  simp only [Bitmap.ofSize, Bool.false_or]
  rw [brailleOps]
  rw [any_filterMap_ite (braille_dot_map)
    (fun t => pattern &&& (1 <<< t.2.2) ≠ 0)
    (fun t => DrawOp.fill_circle
        ([w.fdiv 3, (w * 2).fdiv 3].getD t.2.1 0)
        ([(h * 1).fdiv 5, (h * 2).fdiv 5, (h * 3).fdiv 5, (h * 4).fdiv 5].getD t.1 0)
        (max 1 ((min w h).fdiv 8)))
    (fun op => opCond op w h x y)]
  rw [show braille_dot_map =
    [(0, 0, 0), (1, 0, 1), (2, 0, 2), (0, 1, 3), (1, 1, 4), (2, 1, 5),
     (3, 0, 6), (3, 1, 7)] from rfl]
  simp only [brailleDotSpec]
  rw [show (List.range 8) = [0, 1, 2, 3, 4, 5, 6, 7] by decide]
  simp only [List.any_cons, List.any_nil, and_shiftLeft_ne_zero, brailleCenter]
  rfl

set_option maxHeartbeats 4000000 in
/-- Every codepoint without a matching category falls through to the
lozenge placeholder branch. -/
theorem glyphOps_default (cp : Nat) (w h : Int) (hcp : handled cp = false) :
    glyphOps cp w h = lozengeOps w h := by
  have hcp' := hcp
  rw [handled, Bool.or_eq_false_iff] at hcp'
  obtain ⟨hcp1, hcp2⟩ := hcp'
  have hne : ∀ c : Nat, handledCodes.contains c = true → cp ≠ c := by
    intro c hc he
    subst he
    rw [hcp1] at hc
    exact Bool.false_ne_true hc
  have hbr : ¬(0x2800 ≤ cp ∧ cp ≤ 0x28FF) := by
    intro hab
    have ht : (decide (0x2800 ≤ cp) && decide (cp ≤ 0x28FF)) = true := by
      simp [hab.1, hab.2]
    rw [hcp2] at ht
    exact Bool.false_ne_true ht
  simp only [glyphOps]
  repeat rw [if_neg (hne _ (by decide))]
  rw [if_neg hbr]
  rfl

-- ---------------------------------------------------------------------------
-- Claim theorems
-- ---------------------------------------------------------------------------

/-- C8: every drawing operation clips silently: a pixel outside the grid
of the receiving bitmap is never changed by any of the eight drawing
methods, whatever its (possibly far out-of-range) integer arguments;
rendering any codepoint at any cell size leaves every out-of-grid pixel
unset; and every codepoint that matches no rendering category falls
through to the 4-point lozenge placeholder branch.  (Totality itself is
intrinsic: every operation is defined for all integer arguments.) -/
theorem C8_drawing_clipped_total :
    (∀ (bm : Bitmap) (op : DrawOp) (x y : Int),
        ¬(0 ≤ x ∧ x < bm.w ∧ 0 ≤ y ∧ y < bm.h) →
        (applyOp bm op).pix x y = bm.pix x y) ∧
    (∀ (cp : Nat) (w h x y : Int),
        ¬(0 ≤ x ∧ x < w ∧ 0 ≤ y ∧ y < h) →
        (render_glyph cp w h).pix x y = false) ∧
    (∀ (cp : Nat) (w h : Int), handled cp = false →
        glyphOps cp w h = lozengeOps w h) := by
  refine ⟨?_, ?_, ?_⟩
  · intro bm op x y hout
    rw [applyOp_pix, opCond_outside hout, Bool.or_false]
  · intro cp w h x y hout
    exact render_glyph_outside cp w h x y hout
  · intro cp w h hcp
    exact glyphOps_default cp w h hcp

/-- Witness for C8 at concrete inputs: a rectangle overflowing a 3-by-3
grid leaves the out-of-grid pixel (7, 1) unchanged, a rendered glyph has
pixel (10, 2) of a 6-by-12 cell unset, and the unmapped codepoint 0x41
renders the lozenge placeholder. -/
theorem C8_drawing_clipped_total_witness :
    (applyOp (Bitmap.ofSize 3 3) (DrawOp.fill_rect (-5) (-5) 10 10)).pix 7 1 =
      (Bitmap.ofSize 3 3).pix 7 1 ∧
    (render_glyph 0x2500 6 12).pix 10 2 = false ∧
    glyphOps 0x41 6 12 = lozengeOps 6 12 :=
  ⟨C8_drawing_clipped_total.1 _ _ 7 1 (by decide),
   C8_drawing_clipped_total.2.1 0x2500 6 12 10 2 (by decide),
   C8_drawing_clipped_total.2.2 0x41 6 12 (by decide)⟩

/-- C9: the symbol-to-char-code table is injective (no two codepoints
share a char code), every assigned char code lies in [0x20, 0xAD], the
reverse lookup CODE_TO_UNICODE recovers exactly the mapped codepoint of
every used code, and over the whole supported range a code is defined in
the reverse lookup exactly when some codepoint maps to it. -/
theorem C9_glyph_map_injective :
    (GLYPH_MAP.map Prod.snd).Nodup ∧
    (GLYPH_MAP.all fun p => decide (0x20 ≤ p.2) && decide (p.2 ≤ 0xAD)) = true ∧
    (GLYPH_MAP.all fun p => CODE_TO_UNICODE p.2 == some p.1) = true ∧
    ((List.range' FIRST_CHAR num_chars).all fun c =>
        (CODE_TO_UNICODE c).isSome == GLYPH_MAP.any (fun p => p.2 == c)) = true := by
  refine ⟨by decide, by decide, by decide, by decide⟩

/-- C10: drawing is monotone (no operation ever clears a set pixel), and
the pixels set after folding any sequence of drawing calls over a fresh
bitmap are exactly the union over the calls of the pixels each call would
set alone on the fresh bitmap. -/
theorem C10_canvas_monotone_union :
    (∀ (bm : Bitmap) (op : DrawOp) (x y : Int),
        bm.pix x y = true → (applyOp bm op).pix x y = true) ∧
    (∀ (ops : List DrawOp) (w h x y : Int),
        (ops.foldl applyOp (Bitmap.ofSize w h)).pix x y =
          ops.any (fun op => (applyOp (Bitmap.ofSize w h) op).pix x y)) := by
  constructor
  · intro bm op x y hxy
    rw [applyOp_pix, hxy, Bool.true_or]
  · intro ops w h x y
    rw [foldl_applyOp_pix]
    simp [applyOp, Bitmap.ofSize]

/-- Witness for C10: pixel (0, 0), set by a first rectangle on a fresh
2-by-2 bitmap, stays set after a second drawing call. -/
theorem C10_canvas_monotone_union_witness :
    (applyOp (applyOp (Bitmap.ofSize 2 2) (DrawOp.fill_rect 0 0 2 2))
       (DrawOp.set 1 1)).pix 0 0 = true :=
  C10_canvas_monotone_union.1 _ _ 0 0 (by decide)

/-- C1 counterexample: for the first configured size (9 pt, 6-by-12
cells) the claimed address computation pointerFieldByteAddress + 2 +
2*owTLoc yields 1612, two more than the actual byte offset 1610 of the
offset/width table. -/
theorem C1_counterexample :
    (⟨9, 6, 12, 9, 2, 0⟩ : CellMetrics) ∈ MONACO_METRICS ∧
    owTLoc_byte + 2 + 2 * owTLoc 6 12 = 1612 ∧
    ow_table_byte 6 12 = 1610 := by decide

/-- C1 (amended): for every configured size, pointerFieldByteAddress +
2*owTLoc (without the extra word) equals the byte address of the
offset/width table inside the resource. -/
theorem C1_owtloc_pointer_amended :
    (MONACO_METRICS.all fun m =>
      decide (owTLoc_byte + 2 * owTLoc m.cell_width m.cell_height =
        ow_table_byte m.cell_width m.cell_height)) = true := by decide

/-- C2: for every configured size the owTLoc field equals
(byteOffsetOfTable - 16) / 2 with byteOffsetOfTable = 26 +
rowWords*2*cellHeight + (numChars+2)*2, and the halved difference is
exact (the difference is even, as witnessed by the doubling back). -/
theorem C2_owtloc_word_offset :
    (MONACO_METRICS.all fun m =>
      decide (ow_table_byte m.cell_width m.cell_height =
        26 + row_words m.cell_width * 2 * m.cell_height + (num_chars + 2) * 2) &&
      decide (owTLoc m.cell_width m.cell_height =
        (ow_table_byte m.cell_width m.cell_height - owTLoc_byte) / 2) &&
      decide ((ow_table_byte m.cell_width m.cell_height - owTLoc_byte) % 2 = 0) &&
      decide (owTLoc m.cell_width m.cell_height * 2 =
        ow_table_byte m.cell_width m.cell_height - owTLoc_byte)) = true := by
  decide

/-- C3: for every configured size the location table has exactly
numChars + 2 entries, entry i equals i*cellWidth (including the
missing-glyph entry at index numChars and the sentinel at numChars + 1),
and consecutive entries differ by exactly cellWidth. -/
theorem C3_location_table :
    (MONACO_METRICS.all fun m =>
      decide ((loc_table m.cell_width).length = num_chars + 2) &&
      ((loc_table m.cell_width).enum.all fun e =>
        decide (e.2 = e.1 * m.cell_width)) &&
      decide ((loc_table m.cell_width).get? num_chars =
        some (num_chars * m.cell_width)) &&
      decide ((loc_table m.cell_width).get? (num_chars + 1) =
        some ((num_chars + 1) * m.cell_width)) &&
      (((loc_table m.cell_width).zip (loc_table m.cell_width).tail).all fun q =>
        decide (q.2 = q.1 + m.cell_width))) = true := by decide

/-- C4: for every configured size the offset/width table entry of each
code in the range is (0 << 8) | cellWidth when some codepoint maps to
that code and 0xFFFF otherwise, the missing-glyph entry is
(0 << 8) | cellWidth, the trailing sentinel is 0xFFFF, and no entry ever
has any other value. -/
theorem C4_offset_width_table :
    (MONACO_METRICS.all fun m =>
      decide ((ow_table m.cell_width).length = num_chars + 2) &&
      (((ow_table m.cell_width).take num_chars).enum.all fun e =>
        decide (e.2 = if GLYPH_MAP.any (fun p => p.2 == FIRST_CHAR + e.1)
                      then (0 <<< 8) ||| m.cell_width else 0xFFFF)) &&
      decide ((ow_table m.cell_width).get? num_chars =
        some ((0 <<< 8) ||| m.cell_width)) &&
      decide ((ow_table m.cell_width).get? (num_chars + 1) = some 0xFFFF) &&
      ((ow_table m.cell_width).all fun v =>
        decide (v = (0 <<< 8) ||| m.cell_width ∨ v = 0xFFFF))) = true := by
  decide

/-- C5: for every configured size the strike row bit width rowWords*16
is a multiple of 16, rowWords is exactly the ceiling of stripWidth/16
(it covers the strip and wastes less than one word), and the row is at
least (numberOfDefinedCharacterCodes + 1) * cellWidth bits wide. -/
theorem C5_strike_row_width :
    (MONACO_METRICS.all fun m =>
      decide (row_bits m.cell_width % 16 = 0) &&
      decide (strip_width m.cell_width ≤ row_bits m.cell_width) &&
      decide (row_bits m.cell_width < strip_width m.cell_width + 16) &&
      decide ((numDefinedChars + 1) * m.cell_width ≤ row_bits m.cell_width)) =
      true := by decide

/-- C6: the FOND association table starts with the count-minus-one word
6 (for the 7 configured sizes) followed by one (pointSize, style 0,
NFNT id) triple per size; the point sizes are strictly ascending; and
the ids 200..206 in the triples are exactly the ids that the NFNT
emission loop assigns to the corresponding sizes. -/
theorem C6_fond_association_table :
    fond_assoc_words =
      [6, 9, 0, 200, 10, 0, 201, 12, 0, 202, 14, 0, 203,
       18, 0, 204, 24, 0, 205, 36, 0, 206] ∧
    fond_assoc_words.head? = some (MONACO_METRICS.length - 1) ∧
    List.Pairwise (fun a b => a.pt < b.pt) MONACO_METRICS ∧
    nfnt_ids = [200, 201, 202, 203, 204, 205, 206] := by decide

/-- C7: rendering any braille codepoint draws exactly the dots of the
fixed bit-to-position mapping (bits 0-2 left column top to bottom, bits
3-5 right column top to bottom, bits 6-7 bottom row left then right,
columns at w//3 and w*2//3, row i at h*(i+1)//5, dot radius
max(1, min(w,h)//8)); the pattern with only bit 0 set yields exactly the
one clipped filled disk around (w//3, h//5); and for every configured
cell size the seven other dot centres stay unfilled. -/
theorem C7_braille_bit_mapping :
    (∀ (p : Fin 256) (w h x y : Int),
        (render_glyph (0x2800 + p.val) w h).pix x y =
          brailleDotSpec p.val w h x y) ∧
    (∀ (w h x y : Int),
        (render_glyph 0x2801 w h).pix x y =
          (inGrid w h x y &&
           decide ((x - w.fdiv 3) * (x - w.fdiv 3) +
                   (y - (h * 1).fdiv 5) * (y - (h * 1).fdiv 5) ≤
                   max 1 ((min w h).fdiv 8) * max 1 ((min w h).fdiv 8)))) ∧
    (MONACO_METRICS.all fun m =>
      (([1, 2, 3, 4, 5, 6, 7] : List Nat).all fun b =>
        !(render_glyph 0x2801 (m.cell_width : Int) (m.cell_height : Int)).pix
            (brailleCenter b (m.cell_width : Int) (m.cell_height : Int)).1
            (brailleCenter b (m.cell_width : Int) (m.cell_height : Int)).2)) =
      true := by
  have hmain : ∀ (p : Fin 256) (w h x y : Int),
      (render_glyph (0x2800 + p.val) w h).pix x y =
        brailleDotSpec p.val w h x y := by
    intro p w h x y
    unfold render_glyph
    rw [glyphOps_braille p.val p.isLt, brailleOps_pix]
  refine ⟨hmain, ?_, by decide⟩
  intro w h x y
  have h1 := hmain ⟨1, by norm_num⟩ w h x y
  rw [show (0x2801 : Nat) = 0x2800 + 1 from rfl]
  rw [h1]
  simp only [brailleDotSpec]
  rw [show (List.range 8) = [0, 1, 2, 3, 4, 5, 6, 7] by decide]
  simp only [List.any_cons, List.any_nil,
    show Nat.testBit 1 0 = true from rfl, show Nat.testBit 1 1 = false from rfl,
    show Nat.testBit 1 2 = false from rfl, show Nat.testBit 1 3 = false from rfl,
    show Nat.testBit 1 4 = false from rfl, show Nat.testBit 1 5 = false from rfl,
    show Nat.testBit 1 6 = false from rfl, show Nat.testBit 1 7 = false from rfl,
    Bool.false_and, Bool.or_false, Bool.true_and, brailleCenter]
  simp only [opCond, inGrid]
  rcases hb : decide (0 ≤ x ∧ x < w ∧ 0 ≤ y ∧ y < h) with _ | _
  · simp only [Bool.false_and]
    rw [decide_eq_false_iff_not] at hb
    exact decide_eq_false (fun hc => hb ⟨hc.1, hc.2.1, hc.2.2.1, hc.2.2.2.1⟩)
  · simp only [Bool.true_and]
    rw [decide_eq_true_eq] at hb
    rw [decide_eq_decide]
    exact ⟨fun hc => hc.2.2.2.2,
           fun hd => ⟨hb.1, hb.2.1, hb.2.2.1, hb.2.2.2, hd⟩⟩
